import Mathlib

/-! Shallow embedding of `src/main.py` (GATE 2026 rank-checker script).

Modelling conventions:
* Python floats are modelled as exact rationals (`ℚ`); `round(x, 2)` is
  modelled by `round2`, an explicit round-half-to-even at two decimal
  places (the Python tie-breaking rule on the scaled value).
* The Python number-to-string interpolation is modelled by `showNum`
  (an injective rendering of a rational); none of the verified claims
  depends on the decimal digits of a *present* numeric value, only on
  the literal tokens used for absent values.
* The module-level mutable deque `_norm_history` is modelled by explicit
  state passing: `dequeAppend` is the `deque(maxlen=N).append` operation
  and `histOf` is the state after a whole sequence of appends.
* Network effects are modelled by passing the outcome of each external
  call as a parameter (`netUp`, the optional rank payload, the optional
  response sheet); `run_once` and `main_startup` then return a record of
  everything observable the cycle did: new history, messages sent,
  whether the rank API was called, and the formatted message if any.
-/

/-- Constant `INTERVAL_SECONDS = 15 * 60` (src/main.py line 46). -/
def INTERVAL_SECONDS : ℕ := 15 * 60

/-- Constant `_RETRY_MSG` (line 52): suffix appended to every skip-cycle message. -/
def _RETRY_MSG : String :=
  "Will retry in " ++ toString (INTERVAL_SECONDS / 60) ++ " minutes."

/-- Capacity `_HISTORY_SIZE = 60 * 60 / INTERVAL_SECONDS` (line 53, integer division). -/
def _HISTORY_SIZE : ℕ := 60 * 60 / INTERVAL_SECONDS

/-- The suffix of `l` holding its last `n` elements (all of `l` if shorter). -/
def lastN (n : ℕ) (l : List ℚ) : List ℚ := l.drop (l.length - n)

/-- Operation `deque(maxlen=N).append x` (line 54 / line 173): append at the tail,
evicting from the head whatever exceeds the capacity `N`. -/
def dequeAppend (N : ℕ) (l : List ℚ) (x : ℚ) : List ℚ := lastN N (l ++ [x])

/-- The contents of `_norm_history` after appending the samples `xs`
in order, starting from the empty deque. -/
def histOf (xs : List ℚ) : List ℚ := xs.foldl (dequeAppend _HISTORY_SIZE) []

/-- Round-half-to-even to the nearest integer, as the Python builtin `round` does. -/
def roundHalfEven (q : ℚ) : ℤ :=
  let f := ⌊q⌋
  let r := q - f
  if r < 1/2 then f
  else if 1/2 < r then f + 1
  else if f % 2 = 0 then f else f + 1

/-- Python `round(q, 2)`: round to two decimal places, ties to even. -/
def round2 (q : ℚ) : ℚ := (roundHalfEven (q * 100) : ℚ) / 100

/-- Rendering of a rational as text (stands in for Python float/int
interpolation; injective, exact). -/
def showNum (q : ℚ) : String :=
  if q.den = 1 then toString q.num
  else toString q.num ++ "/" ++ toString q.den

/-- Is the first character list an initial segment of the second? -/
def leadsList : List Char → List Char → Bool
  | [], _ => true
  | _ :: _, [] => false
  | a :: as, b :: bs => a == b && leadsList as bs

/-- Does `pat` occur contiguously inside `s`? -/
def occursList (pat : List Char) : List Char → Bool
  | [] => leadsList pat []
  | c :: rest => leadsList pat (c :: rest) || occursList pat rest

/-- Does `pat` occur in `s` as a contiguous substring? -/
def strOccurs (pat s : String) : Bool := occursList pat.data s.data

/-- Record `ResponseSheetRecord`: the JSON payload of the response-sheet
endpoint, each field optional (absent when missing from the JSON). -/
structure ResponseSheet where
  total_marks : Option ℚ
  set : Option ℕ
  branch : Option String
  total_positive : Option ℚ
  total_positive_percentage : Option ℚ
  one_mark_negative : Option ℚ
  two_marks_negative : Option ℚ
  total_attempted : Option ℚ
deriving DecidableEq

/-- Record `RankEstimate`: the JSON payload of the rank endpoint, each field
optional. -/
structure RankEstimate where
  normalized_mark : Option ℚ
  score_estimate : Option ℚ
  rank_estimate : Option ℚ
  rank_normalized : Option ℚ
  rank_in_set : Option ℚ
  total_in_set : Option ℚ
  total_in_all_sets : Option ℚ
deriving DecidableEq

/-- A response sheet with every field absent (`{}` payload). -/
def emptyRd : ResponseSheet := ⟨none, none, none, none, none, none, none, none⟩

/-- A rank estimate with every field absent (`{}` payload). -/
def emptyRk : RankEstimate := ⟨none, none, none, none, none, none, none⟩

/-- Function `fmt` (lines 96-97): a present value renders with its suffix, an
absent one as the literal "N/A". -/
def fmt (val : Option ℚ) (suffix : String) : String :=
  match val with
  | some v => showNum v ++ suffix
  | none => "N/A"

/-- Function `fmt_delta` (lines 100-110): directional delta between normalised
and raw marks.  The sign test is applied to the already-rounded delta. -/
def fmt_delta (normalised raw : Option ℚ) : String :=
  match normalised, raw with
  | some n, some r =>
    let delta := round2 (n - r)
    if 0 < delta then "▲ +" ++ showNum delta
    else if delta < 0 then "▼ " ++ showNum delta
    else "● no change"
  | _, _ => "N/A"

/-- The `row` helper inside `format_message` (lines 123-124): label
left-justified and padded to width 18, then the value. -/
def row (label value : String) : String :=
  label ++ String.mk (List.replicate (18 - label.length) ' ') ++ value

/-- The rolling-average line body (lines 117-121): the 2-decimal mean
with a fill count when samples exist, an em-dash when the history is
empty. -/
def rolling_mean (history : List ℚ) : ℚ :=
  round2 (history.sum / (history.length : ℚ))

/-- The string built from `rolling_mean`/`rolling_str` in
`format_message` (lines 117-121). -/
def rolling_str (history : List ℚ) : String :=
  if history.isEmpty then "—"
  else showNum (rolling_mean history) ++ "  (" ++ toString history.length
       ++ "/" ++ toString _HISTORY_SIZE ++ " samples)"

/-- The interpolation of the set field with default "?" on line 134: the set
identifier renders as its number, or as "?" when absent. -/
def set_str (rd : ResponseSheet) : String :=
  match rd.set with
  | some s => toString s
  | none => "?"

/-- The `lines` list of `format_message` (lines 126-140). -/
def format_lines (rd : ResponseSheet) (rk : RankEstimate) (history : List ℚ) :
    List String :=
  [row "Raw Marks:" (fmt rd.total_marks ""),
   row "Normalised:" (fmt rk.normalized_mark "" ++ "  "
     ++ fmt_delta rk.normalized_mark rd.total_marks),
   row "1hr Mean:" (rolling_str history),
   row "Est. Score:" (fmt rk.score_estimate ""),
   "",
   row "Est. Rank:" (fmt rk.rank_estimate ""),
   row "Norm. Rank:" (fmt rk.rank_normalized ""),
   row ("Set " ++ set_str rd ++ " Rank:")
     (fmt rk.rank_in_set "" ++ " / " ++ fmt rk.total_in_set ""),
   row "All Sets:" (fmt rk.total_in_all_sets "" ++ " responses"),
   "",
   row "Correct:" (fmt rd.total_positive "" ++ " ("
     ++ fmt rd.total_positive_percentage "%" ++ ")"),
   row "-ve (1M/2M):" (fmt rd.one_mark_negative "" ++ " / "
     ++ fmt rd.two_marks_negative ""),
   row "Attempted:" (fmt rd.total_attempted "" ++ " / 65")]

/-- Function `format_message` (lines 113-142). -/
def format_message (rd : ResponseSheet) (rk : RankEstimate)
    (history : List ℚ) : String :=
  "📊 <b>GATE 2026 Rank Update</b>\n<pre>"
    ++ String.intercalate "\n" (format_lines rd rk history) ++ "</pre>"

/-- Observable outcome of one steady-state cycle (`run_once`). -/
structure RunResult where
  history : List ℚ
  sent : List String
  apiCalled : Bool
  formattedMsg : Option String
deriving DecidableEq

/-- Function `run_once` (lines 145-177), with the outcome of the external calls
passed in: `netUp` is the connectivity-probe answer, `rankResp` is what
`_get_json` returned for the rank endpoint (`none` on any failure).
Returns the new history, the messages sent, whether the rank endpoint
was called, and the formatted message when one was produced. -/
def run_once (rd : ResponseSheet) (netUp : Bool)
    (rankResp : Option RankEstimate) (history : List ℚ) : RunResult :=
  if netUp = false then
    { history := history
      sent := ["🌐 Internet is down. " ++ _RETRY_MSG]
      apiCalled := false
      formattedMsg := none }
  else
    match rankResp with
    | none =>
      { history := history
        sent := ["🔴 Rank API is unreachable. " ++ _RETRY_MSG]
        apiCalled := true
        formattedMsg := none }
    | some rk =>
      match rk.normalized_mark with
      | none =>
        { history := history
          sent := ["⚠️ Rank API response missing normalized_mark. "
                     ++ _RETRY_MSG]
          apiCalled := true
          formattedMsg := none }
      | some nm =>
        let h := dequeAppend _HISTORY_SIZE history nm
        { history := h
          sent := [format_message rd rk h]
          apiCalled := true
          formattedMsg := some (format_message rd rk h) }

/-- The three environment values the script reads (lines 32, 38, 44);
`none` models an unset variable. -/
structure Config where
  RESPONSE_SHEET_URL : Option String
  TELEGRAM_BOT_TOKEN : Option String
  TELEGRAM_CHAT_ID : Option String
deriving DecidableEq

/-- Python truthiness test `not s` on an optional string: true for an
unset variable and for the empty string. -/
def falsy (s : Option String) : Bool :=
  match s with
  | none => true
  | some t => t == ""

/-- Observable outcome of the startup phase of `main`. -/
structure StartResult where
  printed : List String
  fetched : Bool
  sent : List String
  loopEntered : Bool
deriving DecidableEq

/-- The startup phase of `main` (lines 180-204), with the outcome of the
response-sheet fetch passed in (`none` models `_get_json` failing).
Records what was printed, whether a fetch was attempted, what was sent
to Telegram, and whether the steady-state loop was entered. -/
def main_startup (cfg : Config) (respResp : Option ResponseSheet) :
    StartResult :=
  if falsy cfg.RESPONSE_SHEET_URL || falsy cfg.TELEGRAM_BOT_TOKEN
      || falsy cfg.TELEGRAM_CHAT_ID then
    { printed := ["❌ Missing required environment variables."]
      fetched := false
      sent := []
      loopEntered := false }
  else
    match respResp with
    | none =>
      { printed := ["[Startup] Fetching response sheet data...",
                    "[Startup] Failed to fetch response sheet. Exiting."]
        fetched := true
        sent := []
        loopEntered := false }
    | some rd =>
      if rd.total_marks = none ∨ rd.set = none ∨ rd.branch = none then
        { printed := ["[Startup] Fetching response sheet data...",
                      "[Startup] Response sheet missing marks/set/branch. Exiting."]
          fetched := true
          sent := []
          loopEntered := false }
      else
        { printed := ["[Startup] Fetching response sheet data..."]
          fetched := true
          sent := ["🚀 <b>GATE Rank Checker started!</b>"]
          loopEntered := true }

/-- The number of seconds `time.sleep` blocks between cycles (line 209),
viewed as a function of the process environment: the source consults
only the module constant `INTERVAL_SECONDS`, so this function ignores
its argument. -/
def loopSleepSeconds (_env : String → Option String) : ℕ := INTERVAL_SECONDS

/-! Helper lemmas about the rolling history -/

theorem lastN_eq_self {n : ℕ} {l : List ℚ} (h : l.length ≤ n) : lastN n l = l := by
  unfold lastN
  rw [Nat.sub_eq_zero_of_le h, List.drop_zero]

theorem length_lastN_le (n : ℕ) (l : List ℚ) : (lastN n l).length ≤ n := by
  unfold lastN
  rw [List.length_drop]
  omega

theorem lastN_append_absorb (n : ℕ) (a b : List ℚ) :
    lastN n (lastN n a ++ b) = lastN n (a ++ b) := by
  by_cases h : a.length ≤ n
  · rw [lastN_eq_self h]
  · unfold lastN
    rw [← List.drop_append_of_le_length (by omega : a.length - n ≤ a.length)]
    rw [List.drop_drop]
    congr 1
    simp only [List.length_drop, List.length_append]
    omega

theorem foldl_dequeAppend_eq (n : ℕ) (xs : List ℚ) :
    ∀ a : List ℚ, xs.foldl (dequeAppend n) (lastN n a) = lastN n (a ++ xs) := by
  induction xs with
  | nil => intro a; simp
  | cons x xs ih =>
    intro a
    rw [List.foldl_cons]
    have step : dequeAppend n (lastN n a) x = lastN n (a ++ [x]) := by
      unfold dequeAppend
      exact lastN_append_absorb n a [x]
    rw [step, ih (a ++ [x])]
    simp

theorem histOf_eq_lastN (xs : List ℚ) : histOf xs = lastN _HISTORY_SIZE xs := by
  unfold histOf
  have h0 : ([] : List ℚ) = lastN _HISTORY_SIZE [] := rfl
  rw [h0, foldl_dequeAppend_eq _HISTORY_SIZE xs []]
  simp

theorem round2_zero : round2 0 = 0 := by
  norm_num [round2, roundHalfEven]

/-! Claim theorems -/

/-- C1: for every sequence of appended normalized-mark samples, the
history equals the last min(count, N) appended values in append order,
so the rolling mean reported by the formatter is the 2-decimal-rounded
arithmetic mean of exactly those values; and on a successful cycle
`run_once` appends the current normalized mark before formatting, so
the message is formatted from the post-append history. -/
theorem rolling_mean_reports_lastN (xs : List ℚ) :
    histOf xs = lastN _HISTORY_SIZE xs
    ∧ rolling_mean (histOf xs)
        = round2 ((lastN _HISTORY_SIZE xs).sum
            / ((lastN _HISTORY_SIZE xs).length : ℚ))
    ∧ (histOf xs ≠ [] →
        rolling_str (histOf xs)
          = showNum (rolling_mean (histOf xs)) ++ "  ("
            ++ toString (histOf xs).length ++ "/" ++ toString _HISTORY_SIZE
            ++ " samples)")
    ∧ (∀ (rd : ResponseSheet) (rk : RankEstimate) (h : List ℚ) (nm : ℚ),
        rk.normalized_mark = some nm →
          (run_once rd true (some rk) h).history
              = dequeAppend _HISTORY_SIZE h nm
          ∧ (run_once rd true (some rk) h).formattedMsg
              = some (format_message rd rk (dequeAppend _HISTORY_SIZE h nm))) := by
  refine ⟨histOf_eq_lastN xs, by rw [histOf_eq_lastN xs]; rfl, ?_, ?_⟩
  · intro hne
    unfold rolling_str
    cases hh : histOf xs with
    | nil => exact absurd hh hne
    | cons y ys => simp
  · intro rd rk h nm hnm
    constructor <;> simp [run_once, hnm]

/-- C1 witness: two successful cycles with marks 50 and 52. -/
theorem rolling_mean_reports_lastN_witness :
    histOf [50, 52] = lastN _HISTORY_SIZE [50, 52]
    ∧ rolling_mean (histOf [50, 52])
        = round2 ((lastN _HISTORY_SIZE [50, 52]).sum
            / ((lastN _HISTORY_SIZE [50, 52]).length : ℚ))
    ∧ rolling_str (histOf [50, 52])
        = showNum (rolling_mean (histOf [50, 52])) ++ "  ("
          ++ toString (histOf [50, 52]).length ++ "/" ++ toString _HISTORY_SIZE
          ++ " samples)"
    ∧ (run_once emptyRd true (some ⟨some 52, none, none, none, none, none, none⟩)
          [50]).history = dequeAppend _HISTORY_SIZE [50] 52
    ∧ (run_once emptyRd true (some ⟨some 52, none, none, none, none, none, none⟩)
          [50]).formattedMsg
        = some (format_message emptyRd ⟨some 52, none, none, none, none, none, none⟩
            (dequeAppend _HISTORY_SIZE [50] 52)) := by
  obtain ⟨h1, h2, h3, h4⟩ := rolling_mean_reports_lastN [50, 52]
  obtain ⟨h5, h6⟩ :=
    h4 emptyRd ⟨some 52, none, none, none, none, none, none⟩ [50] 52 rfl
  exact ⟨h1, h2, h3 (by decide), h5, h6⟩

/-- C2: the history buffer capacity is `N = 3600 / INTERVAL_SECONDS`;
after any sequence of appends the length never exceeds `N` and the
contents are the appended values in insertion order (oldest first);
appending to a full buffer keeps the length at `N` and drops the
oldest (head) element. -/
theorem history_capacity_invariant (xs h : List ℚ) (x : ℚ) :
    _HISTORY_SIZE = 60 * 60 / INTERVAL_SECONDS
    ∧ (histOf xs).length ≤ _HISTORY_SIZE
    ∧ histOf xs = lastN _HISTORY_SIZE xs
    ∧ (h.length = _HISTORY_SIZE →
        dequeAppend _HISTORY_SIZE h x = h.drop 1 ++ [x]
        ∧ (dequeAppend _HISTORY_SIZE h x).length = _HISTORY_SIZE) := by
  refine ⟨rfl, ?_, histOf_eq_lastN xs, ?_⟩
  · rw [histOf_eq_lastN xs]
    exact length_lastN_le _HISTORY_SIZE xs
  · intro hlen
    have hstep : dequeAppend _HISTORY_SIZE h x = h.drop 1 ++ [x] := by
      unfold dequeAppend lastN
      have harith : (h ++ [x]).length - _HISTORY_SIZE = 1 := by
        rw [List.length_append, hlen]
        rfl
      rw [harith, List.drop_append_of_le_length (by rw [hlen]; decide : 1 ≤ h.length)]
    refine ⟨hstep, ?_⟩
    rw [hstep]
    simp only [List.length_append, List.length_drop, List.length_cons,
      List.length_nil]
    have hn : _HISTORY_SIZE = 4 := rfl
    omega

/-- C2 witness: appending a fifth value to the full four-slot buffer. -/
theorem history_capacity_invariant_witness :
    _HISTORY_SIZE = 60 * 60 / INTERVAL_SECONDS
    ∧ (histOf [1, 2, 3, 4, 5]).length ≤ _HISTORY_SIZE
    ∧ ([1, 2, 3, 4] : List ℚ).length = _HISTORY_SIZE
    ∧ dequeAppend _HISTORY_SIZE [1, 2, 3, 4] 5 = ([1, 2, 3, 4] : List ℚ).drop 1 ++ [5]
    ∧ (dequeAppend _HISTORY_SIZE [1, 2, 3, 4] 5).length = _HISTORY_SIZE := by
  obtain ⟨h1, h2, -, h4⟩ := history_capacity_invariant [1, 2, 3, 4, 5] [1, 2, 3, 4] 5
  obtain ⟨h5, h6⟩ := h4 rfl
  exact ⟨h1, h2, rfl, h5, h6⟩

/-- C3: when the rank-estimate call succeeds but the payload lacks
`normalized_mark`, the cycle is skipped: the history is unchanged, the
formatter is never invoked, and the single notification sent indicates
a malformed response. -/
theorem malformed_payload_skips_cycle (rd : ResponseSheet) (rk : RankEstimate)
    (h : List ℚ) (hmiss : rk.normalized_mark = none) :
    (run_once rd true (some rk) h).history = h
    ∧ (run_once rd true (some rk) h).formattedMsg = none
    ∧ (run_once rd true (some rk) h).sent
        = ["⚠️ Rank API response missing normalized_mark. " ++ _RETRY_MSG]
    ∧ strOccurs "missing normalized_mark"
        ("⚠️ Rank API response missing normalized_mark. " ++ _RETRY_MSG) = true := by
  refine ⟨?_, ?_, ?_, by decide⟩ <;> simp [run_once, hmiss]

/-- C3 witness: the `{}` payload on a non-empty history. -/
theorem malformed_payload_skips_cycle_witness :
    (run_once emptyRd true (some emptyRk) [50]).history = [50]
    ∧ (run_once emptyRd true (some emptyRk) [50]).formattedMsg = none
    ∧ (run_once emptyRd true (some emptyRk) [50]).sent
        = ["⚠️ Rank API response missing normalized_mark. " ++ _RETRY_MSG]
    ∧ strOccurs "missing normalized_mark"
        ("⚠️ Rank API response missing normalized_mark. " ++ _RETRY_MSG) = true :=
  malformed_payload_skips_cycle emptyRd emptyRk [50] rfl

/-- C6: when the connectivity probe reports unreachable, the rank
endpoint is not called, the rest of the cycle is skipped (history
unchanged, nothing formatted), and the notification sent contains the
network-down indicator. -/
theorem network_down_skips_cycle (rd : ResponseSheet)
    (rr : Option RankEstimate) (h : List ℚ) :
    (run_once rd false rr h).apiCalled = false
    ∧ (run_once rd false rr h).history = h
    ∧ (run_once rd false rr h).formattedMsg = none
    ∧ (run_once rd false rr h).sent = ["🌐 Internet is down. " ++ _RETRY_MSG]
    ∧ strOccurs "Internet is down" ("🌐 Internet is down. " ++ _RETRY_MSG) = true := by
  refine ⟨?_, ?_, ?_, ?_, by decide⟩ <;> simp [run_once]

/-- C7: with zero samples the rolling-average line renders the no-data
dash instead of a mean; whenever the mean branch is taken the history
is non-empty, so its length — the divisor — is nonzero. -/
theorem empty_history_renders_no_data :
    rolling_str [] = "—"
    ∧ (∀ (rd : ResponseSheet) (rk : RankEstimate),
        (format_lines rd rk []).getD 2 "" = row "1hr Mean:" "—")
    ∧ (∀ h : List ℚ, h ≠ [] →
        ((h.length : ℚ) ≠ 0
        ∧ rolling_str h
            = showNum (rolling_mean h) ++ "  (" ++ toString h.length ++ "/"
              ++ toString _HISTORY_SIZE ++ " samples)")) := by
  refine ⟨rfl, fun rd rk => rfl, fun h hne => ⟨?_, ?_⟩⟩
  · have : h.length ≠ 0 := fun h0 => hne (List.length_eq_zero.mp h0)
    exact_mod_cast this
  · cases h with
    | nil => exact absurd rfl hne
    | cons y ys => rfl

/-- C7 witness: the empty history and the two-sample history. -/
theorem empty_history_renders_no_data_witness :
    rolling_str [] = "—"
    ∧ (format_lines emptyRd emptyRk []).getD 2 "" = row "1hr Mean:" "—"
    ∧ (([50, 52] : List ℚ).length : ℚ) ≠ 0
    ∧ rolling_str [50, 52]
        = showNum (rolling_mean [50, 52]) ++ "  (" ++ toString ([50, 52] : List ℚ).length
          ++ "/" ++ toString _HISTORY_SIZE ++ " samples)" := by
  obtain ⟨h1, h2, h3⟩ := empty_history_renders_no_data
  obtain ⟨h4, h5⟩ := h3 [50, 52] (by decide)
  exact ⟨h1, h2 emptyRd emptyRk, h4, h5⟩

/-- C8: if any of the three required configuration values is unset,
`main` prints the diagnostic and returns before any loop iteration:
no fetch, no notification, loop never entered. -/
theorem missing_config_aborts (cfg : Config) (resp : Option ResponseSheet)
    (hmiss : cfg.RESPONSE_SHEET_URL = none ∨ cfg.TELEGRAM_BOT_TOKEN = none
      ∨ cfg.TELEGRAM_CHAT_ID = none) :
    main_startup cfg resp
      = { printed := ["❌ Missing required environment variables."]
          fetched := false
          sent := []
          loopEntered := false } := by
  rcases hmiss with h | h | h <;> simp [main_startup, falsy, h]

/-- C8 witness: the bot token is unset. -/
theorem missing_config_aborts_witness :
    main_startup ⟨some "http://sheet", none, some "12345"⟩
        (some ⟨some 45, some 2, some "CS", none, none, none, none, none⟩)
      = { printed := ["❌ Missing required environment variables."]
          fetched := false
          sent := []
          loopEntered := false } :=
  missing_config_aborts ⟨some "http://sheet", none, some "12345"⟩
    (some ⟨some 45, some 2, some "CS", none, none, none, none, none⟩)
    (Or.inr (Or.inl rfl))

/-- C4: `fmt_delta` on two present numbers renders an up-arrow with a
leading "+" when the (2-decimal-rounded) delta is positive, a
down-arrow with the signed rounded delta when it is negative, the
"no change" marker when the inputs are equal, and "N/A" when either
input is absent. -/
theorem fmt_delta_renders_cases (n r : ℚ) (x : Option ℚ) :
    (0 < round2 (n - r) →
      fmt_delta (some n) (some r) = "▲ +" ++ showNum (round2 (n - r)))
    ∧ (round2 (n - r) < 0 →
      fmt_delta (some n) (some r) = "▼ " ++ showNum (round2 (n - r)))
    ∧ (n = r → fmt_delta (some n) (some r) = "● no change")
    ∧ fmt_delta none x = "N/A"
    ∧ fmt_delta x none = "N/A" := by
  refine ⟨?_, ?_, ?_, ?_, ?_⟩
  · intro hp
    simp [fmt_delta, hp]
  · intro hneg
    simp [fmt_delta, hneg, not_lt.mpr hneg.le]
  · intro heq
    subst heq
    simp [fmt_delta, sub_self, round2_zero]
  · cases x <;> rfl
  · cases x <;> rfl

/-- C4 witness: a positive, a negative, an equal, and two absent cases. -/
theorem fmt_delta_renders_cases_witness :
    fmt_delta (some (5/2)) (some 1) = "▲ +" ++ showNum (round2 ((5:ℚ)/2 - 1))
    ∧ fmt_delta (some 1) (some 3) = "▼ " ++ showNum (round2 ((1:ℚ) - 3))
    ∧ fmt_delta (some 2) (some 2) = "● no change"
    ∧ fmt_delta none (some 1) = "N/A"
    ∧ fmt_delta (some 1) none = "N/A" :=
  ⟨(fmt_delta_renders_cases (5/2) 1 none).1
      (by norm_num [round2, roundHalfEven]),
   (fmt_delta_renders_cases 1 3 none).2.1
      (by norm_num [round2, roundHalfEven]),
   (fmt_delta_renders_cases 2 2 none).2.2.1 rfl,
   (fmt_delta_renders_cases 0 0 (some 1)).2.2.2.1,
   (fmt_delta_renders_cases 0 0 (some 1)).2.2.2.2⟩

/-- C10: for present, unequal inputs whose true delta rounds to 0 at
two decimal places, `fmt_delta` returns the "no change" marker: the
sign test inspects the rounded delta, not the true one. -/
theorem sign_test_on_rounded_delta (n r : ℚ) (_hne : n ≠ r)
    (h0 : round2 (n - r) = 0) :
    fmt_delta (some n) (some r) = "● no change" := by
  simp [fmt_delta, h0]

/-- C10 witness: a true delta of 0.004 rounds to 0 and renders as
"no change" even though the inputs differ. -/
theorem sign_test_on_rounded_delta_witness :
    (1004/1000 : ℚ) ≠ 1
    ∧ round2 ((1004/1000 : ℚ) - 1) = 0
    ∧ fmt_delta (some (1004/1000)) (some 1) = "● no change" :=
  ⟨by norm_num, by norm_num [round2, roundHalfEven],
   sign_test_on_rounded_delta (1004/1000) 1 (by norm_num)
     (by norm_num [round2, roundHalfEven])⟩

set_option maxRecDepth 4000 in
/-- C5 counterexample: with the set identifier absent, `format_message`
renders it as "?" inside the set-rank row label, not as "N/A", so not
every absent field renders as the "N/A" token. -/
theorem absent_set_renders_question_mark :
    emptyRd.set = none
    ∧ set_str emptyRd = "?"
    ∧ set_str emptyRd ≠ "N/A"
    ∧ (format_lines emptyRd emptyRk []).getD 7 "" = "Set ? Rank:       N/A / N/A"
    ∧ strOccurs "Set ? Rank:" (format_message emptyRd emptyRk []) = true
    ∧ strOccurs "Set N/A" (format_message emptyRd emptyRk []) = false := by
  refine ⟨rfl, rfl, by decide, by decide, by decide, by decide⟩

/-- C5 amended: `format_message` is total — it always yields the
header, the thirteen rows and the footer — and every absent field that
is rendered as a row *value* (through `fmt`) renders as the literal
"N/A"; the set identifier, rendered inside a row label, renders as "?"
when absent, and the branch identifier does not appear in the message
at all. -/
theorem absent_value_fields_render_na (rd : ResponseSheet) (rk : RankEstimate)
    (h : List ℚ) :
    format_message rd rk h
      = "📊 <b>GATE 2026 Rank Update</b>\n<pre>"
        ++ String.intercalate "\n" (format_lines rd rk h) ++ "</pre>"
    ∧ (format_lines rd rk h).length = 13
    ∧ (rd.total_marks = none →
        (format_lines rd rk h).getD 0 "" = "Raw Marks:        N/A")
    ∧ (rk.normalized_mark = none →
        (format_lines rd rk h).getD 1 "" = "Normalised:       N/A  N/A")
    ∧ (rk.score_estimate = none →
        (format_lines rd rk h).getD 3 "" = "Est. Score:       N/A")
    ∧ (rk.rank_estimate = none →
        (format_lines rd rk h).getD 5 "" = "Est. Rank:        N/A")
    ∧ (rk.rank_normalized = none →
        (format_lines rd rk h).getD 6 "" = "Norm. Rank:       N/A")
    ∧ (rd.set = none → rk.rank_in_set = none → rk.total_in_set = none →
        (format_lines rd rk h).getD 7 "" = "Set ? Rank:       N/A / N/A")
    ∧ (rk.total_in_all_sets = none →
        (format_lines rd rk h).getD 8 "" = "All Sets:         N/A responses")
    ∧ (rd.total_positive = none → rd.total_positive_percentage = none →
        (format_lines rd rk h).getD 10 "" = "Correct:          N/A (N/A)")
    ∧ (rd.one_mark_negative = none → rd.two_marks_negative = none →
        (format_lines rd rk h).getD 11 "" = "-ve (1M/2M):      N/A / N/A")
    ∧ (rd.total_attempted = none →
        (format_lines rd rk h).getD 12 "" = "Attempted:        N/A / 65") := by
  refine ⟨rfl, rfl, ?_, ?_, ?_, ?_, ?_, ?_, ?_, ?_, ?_, ?_⟩
  · intro h1
    show row "Raw Marks:" (fmt rd.total_marks "") = _
    rw [h1]
    decide
  · intro h1
    show row "Normalised:" (fmt rk.normalized_mark "" ++ "  "
      ++ fmt_delta rk.normalized_mark rd.total_marks) = _
    rw [h1]
    cases rd.total_marks <;> rfl
  · intro h1
    show row "Est. Score:" (fmt rk.score_estimate "") = _
    rw [h1]
    decide
  · intro h1
    show row "Est. Rank:" (fmt rk.rank_estimate "") = _
    rw [h1]
    decide
  · intro h1
    show row "Norm. Rank:" (fmt rk.rank_normalized "") = _
    rw [h1]
    decide
  · intro h1 h2 h3
    show row ("Set " ++ set_str rd ++ " Rank:")
      (fmt rk.rank_in_set "" ++ " / " ++ fmt rk.total_in_set "") = _
    rw [h2, h3]
    unfold set_str
    rw [h1]
    decide
  · intro h1
    show row "All Sets:" (fmt rk.total_in_all_sets "" ++ " responses") = _
    rw [h1]
    decide
  · intro h1 h2
    show row "Correct:" (fmt rd.total_positive "" ++ " ("
      ++ fmt rd.total_positive_percentage "%" ++ ")") = _
    rw [h1, h2]
    decide
  · intro h1 h2
    show row "-ve (1M/2M):" (fmt rd.one_mark_negative "" ++ " / "
      ++ fmt rd.two_marks_negative "") = _
    rw [h1, h2]
    decide
  · intro h1
    show row "Attempted:" (fmt rd.total_attempted "" ++ " / 65") = _
    rw [h1]
    decide

/-- C5 amended witness: both records entirely empty. -/
theorem absent_value_fields_render_na_witness :
    format_message emptyRd emptyRk []
      = "📊 <b>GATE 2026 Rank Update</b>\n<pre>"
        ++ String.intercalate "\n" (format_lines emptyRd emptyRk []) ++ "</pre>"
    ∧ (format_lines emptyRd emptyRk []).length = 13
    ∧ (format_lines emptyRd emptyRk []).getD 0 "" = "Raw Marks:        N/A"
    ∧ (format_lines emptyRd emptyRk []).getD 1 "" = "Normalised:       N/A  N/A"
    ∧ (format_lines emptyRd emptyRk []).getD 3 "" = "Est. Score:       N/A"
    ∧ (format_lines emptyRd emptyRk []).getD 5 "" = "Est. Rank:        N/A"
    ∧ (format_lines emptyRd emptyRk []).getD 6 "" = "Norm. Rank:       N/A"
    ∧ (format_lines emptyRd emptyRk []).getD 7 "" = "Set ? Rank:       N/A / N/A"
    ∧ (format_lines emptyRd emptyRk []).getD 8 "" = "All Sets:         N/A responses"
    ∧ (format_lines emptyRd emptyRk []).getD 10 "" = "Correct:          N/A (N/A)"
    ∧ (format_lines emptyRd emptyRk []).getD 11 "" = "-ve (1M/2M):      N/A / N/A"
    ∧ (format_lines emptyRd emptyRk []).getD 12 "" = "Attempted:        N/A / 65" := by
  obtain ⟨g1, g2, g3, g4, g5, g6, g7, g8, g9, g10, g11, g12⟩ :=
    absent_value_fields_render_na emptyRd emptyRk []
  exact ⟨g1, g2, g3 rfl, g4 rfl, g5 rfl, g6 rfl, g7 rfl, g8 rfl rfl rfl,
    g9 rfl, g10 rfl rfl, g11 rfl rfl, g12 rfl⟩

/-- C9 counterexample: the sleep between cycles is the hard-coded
constant `INTERVAL_SECONDS` and does not consult the environment: even
an environment that maps every variable (any override key included) to
"300" still yields a 900-second sleep. -/
theorem interval_override_ignored :
    loopSleepSeconds (fun _ => some "300") = 900 ∧ (900 : ℕ) ≠ 300 :=
  ⟨rfl, by decide⟩

/-- C9 amended: the poll interval is the module constant
`INTERVAL_SECONDS = 15 * 60 = 900` seconds; the sleep of the loop equals it
for every environment, i.e. no configuration override exists. -/
theorem interval_is_constant_900 (env : String → Option String) :
    loopSleepSeconds env = INTERVAL_SECONDS ∧ INTERVAL_SECONDS = 900 :=
  ⟨rfl, rfl⟩
